import Mathlib

/-!
Verification of the post-processing pipeline of the audio-transcriber
application: the Yandex.Speller spelling stage
(`src/services/yandexSpellerService.ts`) and the punctuation stage with its
Gemini → Groq → DeepSeek fallback chain
(`src/services/postProcessingService.ts`, newer variant).

Strings are modelled as Lean `String` (a list of characters); asynchronous
adapter calls are modelled as oracle functions returning `Except`, where
`Except.error msg` stands for a thrown exception carrying message `msg`.
Each embedded definition mirrors one function of the source.
-/

set_option maxRecDepth 4000

/-- JavaScript `String.prototype.trim`: strip leading and trailing
whitespace.  Modelled structurally over the character list (Lean's own
`String.trim` is byte-index based and does not reduce definitionally). -/
def jsTrim (s : String) : String :=
  (((s.toList.dropWhile Char.isWhitespace).reverse.dropWhile Char.isWhitespace).reverse).asString

/-- The guard `!text || text.trim().length === 0` of `checkSpelling`
(yandexSpellerService.ts line 39). -/
def isBlank (text : String) : Bool :=
  text == "" || (jsTrim text).length == 0

/-- One correction record returned by the Yandex.Speller API
(interface `SpellingError`, yandexSpellerService.ts lines 6-14). -/
structure SpellingError where
  code : Nat
  pos : Nat
  row : Nat
  col : Nat
  len : Nat
  word : String
  s : List String
deriving DecidableEq

/-- Interface `SpellingResult` (yandexSpellerService.ts lines 16-22). -/
structure SpellingResult where
  success : Bool
  text : Option String
  errors : Option (List SpellingError)
  correctedCount : Option Nat
  error : Option String
deriving DecidableEq

/-- The comparator `(a, b) => b.pos - a.pos` of the sort in
`applyCorrections` (line 108): descending order of `pos`. -/
def posDesc (a b : SpellingError) : Prop := b.pos ≤ a.pos

instance : DecidableRel posDesc := fun a b => Nat.decLe b.pos a.pos

instance : IsTotal SpellingError posDesc := ⟨fun a b => Nat.le_total b.pos a.pos⟩

instance : IsTrans SpellingError posDesc := ⟨fun _ _ _ hab hbc => Nat.le_trans hbc hab⟩

/-- The sort `[...errors].sort((a, b) => b.pos - a.pos)` (line 108).  JavaScript's
`Array.prototype.sort` is stable, and any stable sort by the same key
ordering yields the same list as stable insertion sort. -/
def sortCorrections (errors : List SpellingError) : List SpellingError :=
  List.insertionSort posDesc errors

/-- One iteration of the loop of `applyCorrections` (lines 113-123): take
the first candidate, if any, and splice it over `[pos, pos+len)`; a record
with no candidates is skipped. -/
def applyCorrection (result : String) (e : SpellingError) : String :=
  match e.s with
  | [] => result
  | c :: _ =>
      ((result.toList.take e.pos) ++ c.toList ++ (result.toList.drop (e.pos + e.len))).asString

/-- Function `applyCorrections` (yandexSpellerService.ts lines 102-130). -/
def applyCorrections (text : String) (errors : List SpellingError) : String :=
  if errors.isEmpty then text
  else (sortCorrections errors).foldl applyCorrection text

/-- A request submitted to the Yandex.Speller HTTP adapter
(the form data built at lines 58-62). -/
structure SpellerRequest where
  text : String
  lang : List String
  options : Nat
  format : String
deriving DecidableEq

/-- Constant `SPELLER_OPTIONS.IGNORE_URLS` (line 26), the default `options`. -/
def SPELLER_IGNORE_URLS : Nat := 2

/-- The truncation step of `checkSpelling` (lines 49-52):
`text = text.substring(0, 10000)` when over the 10000-character ceiling. -/
def truncateForSpeller (text : String) : String :=
  if text.length > 10000 then (text.toList.take 10000).asString else text

/-- The request `checkSpelling` builds (lines 58-62): the given text, the
comma-joined languages, the options bitmask, and `format=plain`. -/
def spellerRequestOf (text : String) (lang : List String) (options : Nat) : SpellerRequest :=
  { text := text, lang := lang, options := options, format := "plain" }

/-- Function `checkSpelling` (yandexSpellerService.ts lines 34-96).  The HTTP call
is an oracle `adapter`; `Except.error` covers a network error, a non-2xx
response (the explicit `throw` at line 73) and a malformed JSON body.  The
second component lists the requests actually submitted to the adapter.
The source reassigns `text` to its truncation once; here the pure
`truncateForSpeller text` stands for every later read of that variable. -/
def checkSpelling (text : String) (lang : List String) (options : Nat)
    (adapter : SpellerRequest → Except String (List SpellingError)) :
    SpellingResult × List SpellerRequest :=
  if isBlank text then
    ({ success := true, text := some text, errors := some [], correctedCount := some 0,
       error := none }, [])
  else
    match adapter (spellerRequestOf (truncateForSpeller text) lang options) with
    | Except.ok errors =>
        ({ success := true, text := some (applyCorrections (truncateForSpeller text) errors),
           errors := some errors, correctedCount := some errors.length, error := none },
         [spellerRequestOf (truncateForSpeller text) lang options])
    | Except.error msg =>
        ({ success := false, text := some (truncateForSpeller text), errors := none,
           correctedCount := none, error := some msg },
         [spellerRequestOf (truncateForSpeller text) lang options])

/-- Type `TranscriptionMode` (src/types.ts). -/
inductive TranscriptionMode
  | general
  | corrector
  | coder
  | translator
deriving DecidableEq

/-- Type `TonePreset` (src/types.ts). -/
inductive TonePreset
  | default
  | friendly
  | serious
  | professional
deriving DecidableEq

/-- Interface `ProcessingResult` (postProcessingService.ts lines 276-282; the
`keyPoints` field is used only by `extractKeyPoints` and is omitted). -/
structure ProcessingResult where
  success : Bool
  text : Option String
  error : Option String
  provider : Option String
deriving DecidableEq

/-- The error message thrown by `getAI` when the client is uninitialized
(postProcessingService.ts line 303). -/
def geminiInitErrorMsg : String :=
  "Gemini API client not initialized. Call setPostProcessingApiKey() first."

/-- Function `getAI` (postProcessingService.ts lines 301-306): return the
process-wide client handle, or throw if it was never initialized. -/
def getAI (aiInit : Bool) : Except String Unit :=
  if aiInit then Except.ok () else Except.error geminiInitErrorMsg

/-- The `toneInstructions` record (lines 328-333), including the
`toneInstructions[tone] || ''` read at line 335. -/
def toneInstruction : TonePreset → String
  | TonePreset.default => ""
  | TonePreset.friendly => "Используй теплый, разговорный и дружелюбный тон."
  | TonePreset.serious => "Используй строгий, формальный и серьезный тон."
  | TonePreset.professional => "Используй отполированный, деловой и профессиональный стиль."

/-- The Tier-1 (Gemini) prompt built by `fixPunctuation`
(lines 320-341): punctuation-only in `general` mode, punctuation plus
tone-directed style otherwise. -/
def geminiPunctuationPrompt (text : String) (mode : TranscriptionMode) (tone : TonePreset) :
    String :=
  if mode = TranscriptionMode.general then
    "Исправь пунктуацию в следующем тексте. Расставь запятые, точки, вопросительные и восклицательные знаки согласно правилам русского и английского языка. Сохрани весь контент без изменений, только добавь знаки препинания. Не добавляй никаких пояснений, верни только исправленный текст.\n\nТекст:\n" ++ text
  else
    "Исправь пунктуацию и улучши стиль следующего текста. " ++ toneInstruction tone ++ " Расставь запятые, точки, вопросительные и восклицательные знаки. Сохрани ключевой смысл. Верни только исправленный текст без пояснений.\n\nТекст:\n" ++ text

/-- The `PUNCTUATION_PROMPT` system instruction used by the Tier-2 and
Tier-3 chat-completion fallbacks (lines 359-361). -/
def fallbackPunctuationPrompt (mode : TranscriptionMode) : String :=
  if mode = TranscriptionMode.general then
    "Исправь пунктуацию в тексте. Расставь запятые, точки, вопросительные и восклицательные знаки. Сохрани весь контент без изменений, только добавь знаки препинания. Верни только исправленный текст без пояснений."
  else
    "Исправь пунктуацию и улучши стиль текста. Расставь запятые, точки, вопросительные и восклицательные знаки. Сохрани ключевой смысл, но улучши формулировки. Верни только исправленный текст без пояснений."

/-- Substring search on character lists, the model of JavaScript
`String.prototype.includes`. -/
def listIncludes (pat : List Char) : List Char → Bool
  | [] => pat.isEmpty
  | a :: t => pat.isPrefixOf (a :: t) || listIncludes pat t

/-- The check `errorMsg.includes(pat)`. -/
def strIncludes (s pat : String) : Bool :=
  listIncludes pat.toList s.toList

/-- The quota / rate-limit gate of the fallback chain (line 363):
`errorMsg.includes('429') || errorMsg.includes('quota') ||
errorMsg.includes('RESOURCE_EXHAUSTED')`. -/
def quotaSignature (msg : String) : Bool :=
  strIncludes msg "429" || strIncludes msg "quota" || strIncludes msg "RESOURCE_EXHAUSTED"

/-- JavaScript `a || b` on nullable strings: `null`/`undefined` and the
empty string are falsy. -/
def jsOr (a b : Option String) : Option String :=
  match a with
  | none => b
  | some s => if s = "" then b else some s

/-- JavaScript `a || d` where `d` is a non-empty string literal. -/
def jsOrD (a : Option String) (d : String) : String :=
  match a with
  | none => d
  | some s => if s = "" then d else s

/-- JavaScript truthiness check `if (content)` on the optional
`choices[0].message.content` of a chat-completion response: present and
non-empty. -/
def contentOf : Option String → Option String
  | none => none
  | some c => if c = "" then none else some c

/-- The assignment `const processedText = result.text?.trim() || text` (line 348):
the trimmed Gemini response text, or the original text when the response
has no text or trims to empty. -/
def geminiProcessedText (text : String) : Option String → String
  | none => text
  | some s => if jsTrim s = "" then text else jsTrim s

/-- The environment one `fixPunctuation` call runs in: whether the Gemini
client was initialized, the outcome each provider would give if called
(`Except.error` = thrown exception, `Except.ok o` = resolved response with
optional message content), and the configuration read for the DeepSeek
tier (`localStorage` override plus `import.meta.env` variables, `none` =
unset). -/
structure PunctuationEnv where
  aiInit : Bool
  gemini : Except String (Option String)
  groq : Except String (Option String)
  deepseek : Except String (Option String)
  lsDeepSeekKey : Option String
  envDeepSeekKey : Option String
  envOpenAIKey : Option String
  envDeepSeekModel : Option String
  envOpenAIModel : Option String
  envDeepSeekBaseUrl : Option String
  envOpenAIBaseUrl : Option String

/-- The DeepSeek key resolution (line 387):
`localStorage.getItem('VITE_DEEPSEEK_API_KEY') || env.VITE_DEEPSEEK_API_KEY
|| env.VITE_OPENAI_API_KEY`. -/
def resolvedDeepSeekKey (env : PunctuationEnv) : Option String :=
  jsOr (jsOr env.lsDeepSeekKey env.envDeepSeekKey) env.envOpenAIKey

/-- The resolution `env.VITE_DEEPSEEK_MODEL || env.VITE_OPENAI_MODEL || 'deepseek-chat'`
(line 393). -/
def resolvedDeepSeekModel (env : PunctuationEnv) : String :=
  jsOrD (jsOr env.envDeepSeekModel env.envOpenAIModel) "deepseek-chat"

/-- The resolution `env.VITE_DEEPSEEK_BASE_URL || env.VITE_OPENAI_BASE_URL ||
'https://api.deepseek.com/v1'` (line 394). -/
def resolvedDeepSeekBaseUrl (env : PunctuationEnv) : String :=
  jsOrD (jsOr env.envDeepSeekBaseUrl env.envOpenAIBaseUrl) "https://api.deepseek.com/v1"

/-- One provider call issued by `fixPunctuation`, with the arguments it
was given. -/
inductive TierCall
  | gemini (model prompt : String)
  | groq (systemPrompt userText model : String)
  | deepseek (systemPrompt userText model baseUrl apiKey : String)
deriving DecidableEq

/-- Whether a call went to the Tier-1 generative adapter. -/
def TierCall.isGemini : TierCall → Bool
  | TierCall.gemini _ _ => true
  | _ => false

/-- The Tier-1 call of `fixPunctuation` (lines 343-346). -/
def geminiCall (text : String) (mode : TranscriptionMode) (tone : TonePreset) : TierCall :=
  TierCall.gemini "gemini-2.0-flash-exp" (geminiPunctuationPrompt text mode tone)

/-- The Tier-2 call of `fixPunctuation` (lines 367-373): system prompt plus
user text at the fixed fast model. -/
def groqTierCall (mode : TranscriptionMode) (text : String) : TierCall :=
  TierCall.groq (fallbackPunctuationPrompt mode) text "llama-3.3-70b-versatile"

/-- The Tier-3 call of `fixPunctuation` (lines 396-404): system prompt plus
user text at the resolved DeepSeek model, base URL and key. -/
def deepSeekTierCall (env : PunctuationEnv) (mode : TranscriptionMode) (text k : String) :
    TierCall :=
  TierCall.deepseek (fallbackPunctuationPrompt mode) text (resolvedDeepSeekModel env)
    (resolvedDeepSeekBaseUrl env) k

/-- The final `return` of `fixPunctuation` (lines 420-425):
`success: false, text: <original>, error: <tier-1 error message>`. -/
def punctuationFailure (text errMsg : String) : ProcessingResult :=
  { success := false, text := some text, error := some errMsg, provider := none }

/-- The `catch` block of `fixPunctuation` (lines 354-425), entered with
the Tier-1 error message `e` and the calls already made (`prior`): gate on
the quota signature; inside the gate try Groq, and only inside Groq's own
`catch` handler resolve the DeepSeek key and try DeepSeek; every
unsuccessful path ends at the final failure return. -/
def fixPunctuationCatch (text : String) (mode : TranscriptionMode) (env : PunctuationEnv)
    (e : String) (prior : List TierCall) : ProcessingResult × List TierCall :=
  if quotaSignature e then
    match env.groq with
    | Except.ok o =>
        match contentOf o with
        | some c =>
            ({ success := true, text := some (jsTrim c), error := none,
               provider := some "Groq (Llama 3)" }, prior ++ [groqTierCall mode text])
        | none => (punctuationFailure text e, prior ++ [groqTierCall mode text])
    | Except.error _ =>
        match resolvedDeepSeekKey env with
        | some k =>
            if k = "" then (punctuationFailure text e, prior ++ [groqTierCall mode text])
            else
              match env.deepseek with
              | Except.ok o =>
                  match contentOf o with
                  | some c =>
                      ({ success := true, text := some (jsTrim c), error := none,
                         provider := some "DeepSeek" },
                       prior ++ [groqTierCall mode text, deepSeekTierCall env mode text k])
                  | none =>
                      (punctuationFailure text e,
                       prior ++ [groqTierCall mode text, deepSeekTierCall env mode text k])
              | Except.error _ =>
                  (punctuationFailure text e,
                   prior ++ [groqTierCall mode text, deepSeekTierCall env mode text k])
        | none => (punctuationFailure text e, prior ++ [groqTierCall mode text])
  else
    (punctuationFailure text e, prior)

/-- Function `fixPunctuation` (postProcessingService.ts lines 313-426).  `getAI`
throwing, or the Gemini call throwing, lands in the `catch` block with the
corresponding message; a resolved Gemini call is an immediate success. -/
def fixPunctuation (text : String) (mode : TranscriptionMode) (tone : TonePreset)
    (env : PunctuationEnv) : ProcessingResult × List TierCall :=
  match getAI env.aiInit with
  | Except.error e => fixPunctuationCatch text mode env e []
  | Except.ok _ =>
      match env.gemini with
      | Except.ok o =>
          ({ success := true, text := some (geminiProcessedText text o), error := none,
             provider := none }, [geminiCall text mode tone])
      | Except.error e => fixPunctuationCatch text mode env e [geminiCall text mode tone]

/-- Structure `StageResult`, the per-stage outcome of the pipeline (spec section 3). -/
structure StageResult where
  succeeded : Bool
  text : Option String
  errorMessage : Option String
  providerLabel : Option String
deriving DecidableEq

/-- Modelled from the spec: the spelling-only instruction the Spelling
Correction Stage sends to the generative-text adapter on fallback (spec
section 4.1: fix spelling only, preserve grammar/punctuation/style, return
corrected text with no commentary).  The stage wrapper itself is not part
of src/. -/
def spellingFallbackInstruction (text : String) : String :=
  "Fix spelling only, preserve grammar, punctuation and style, return the corrected text with no commentary.\n\nText:\n" ++ text

/-- Modelled from the spec: `correctSpelling(text, languages)` (spec
section 4.1), the Spelling Correction Stage wrapper, which is absent from
src/ (only its primary path `checkSpelling` is present there).  Primary
path: `checkSpelling` with the IGNORE_URLS option; on its failure, fall
back to the generative-text adapter with a spelling-only instruction under
the distinguishable label "Gemini (Spelling Fallback)"; if both fail,
return `succeeded=false`, the original text, and the last error. -/
def correctSpelling (text : String) (lang : List String)
    (adapter : SpellerRequest → Except String (List SpellingError))
    (genAdapter : String → Except String String) : StageResult :=
  let r := (checkSpelling text lang SPELLER_IGNORE_URLS adapter).1
  if r.success then
    { succeeded := true, text := r.text, errorMessage := none,
      providerLabel := some "Yandex.Speller" }
  else
    match genAdapter (spellingFallbackInstruction text) with
    | Except.ok t =>
        { succeeded := true, text := some t, errorMessage := none,
          providerLabel := some "Gemini (Spelling Fallback)" }
    | Except.error msg =>
        { succeeded := false, text := some text, errorMessage := some msg,
          providerLabel := none }

/-! Concrete inputs used by counterexamples and witnesses. -/

/-- The `pos = 0` correction of the merge example of spec section 8. -/
def corrAt0 : SpellingError :=
  { code := 1, pos := 0, row := 0, col := 0, len := 3, word := "hel", s := ["xyz"] }

/-- The `pos = 5` correction of the merge example of spec section 8. -/
def corrAt5 : SpellingError :=
  { code := 1, pos := 5, row := 0, col := 0, len := 2, word := "o ", s := ["ab"] }

/-- A correction at `pos = 0` replacing one character by `"X"`. -/
def corrDupX : SpellingError :=
  { code := 1, pos := 0, row := 0, col := 0, len := 1, word := "a", s := ["X"] }

/-- A second correction at the same `pos = 0` replacing one character by `"Y"`. -/
def corrDupY : SpellingError :=
  { code := 1, pos := 0, row := 0, col := 0, len := 1, word := "a", s := ["Y"] }

/-- A 10001-character whitespace-only input. -/
def longBlank : String := (List.replicate 10001 ' ').asString

/-- A 10001-character non-blank input. -/
def longA : String := (List.replicate 10001 'a').asString

/-- A speller adapter that always succeeds with no corrections. -/
def okSpellerAdapter : SpellerRequest → Except String (List SpellingError) :=
  fun _ => Except.ok []

/-- A speller adapter that always throws. -/
def downSpellerAdapter : SpellerRequest → Except String (List SpellingError) :=
  fun _ => Except.error "network down"

/-- A generative-text adapter that always succeeds. -/
def okGenAdapter : String → Except String String :=
  fun _ => Except.ok "fixed text"

/-- Environment whose Tier-1 error is not a quota signature while Tier 2
would succeed. -/
def envNonQuotaDown : PunctuationEnv :=
  { aiInit := true, gemini := Except.error "network failure",
    groq := Except.ok (some "groq text"), deepseek := Except.ok (some "ds text"),
    lsDeepSeekKey := some "k1", envDeepSeekKey := none, envOpenAIKey := none,
    envDeepSeekModel := none, envOpenAIModel := none,
    envDeepSeekBaseUrl := none, envOpenAIBaseUrl := none }

/-- Environment with a quota-signature Tier-1 error and a succeeding Tier 2. -/
def envQuota429 : PunctuationEnv :=
  { envNonQuotaDown with gemini := Except.error "429 Too Many Requests" }

/-- Environment where every provider throws and no DeepSeek key is set. -/
def envAllDown : PunctuationEnv :=
  { aiInit := true, gemini := Except.error "quota exceeded",
    groq := Except.error "boom", deepseek := Except.error "down",
    lsDeepSeekKey := none, envDeepSeekKey := none, envOpenAIKey := none,
    envDeepSeekModel := none, envOpenAIModel := none,
    envDeepSeekBaseUrl := none, envOpenAIBaseUrl := none }

/-- Environment reaching the DeepSeek tier, which succeeds. -/
def envDeepSeekUp : PunctuationEnv :=
  { envQuota429 with groq := Except.error "boom", deepseek := Except.ok (some "Privet.") }

/-- Environment with an uninitialized Gemini client. -/
def envNoInit : PunctuationEnv := { envNonQuotaDown with aiInit := false }

/-- Environment where Tier 2 resolves but carries no message content. -/
def envGroqEmptyContent : PunctuationEnv :=
  { envQuota429 with groq := Except.ok (some "") }

/-- Strict descending order on `pos`, for uniqueness of the sorted merge
order when all positions are distinct. -/
def posDescStrict (a b : SpellingError) : Prop := b.pos < a.pos

instance : IsAntisymm SpellingError posDescStrict :=
  ⟨fun _ _ h1 h2 => absurd (Nat.lt_trans h1 h2) (Nat.lt_irrefl _)⟩

/-! Helper lemmas. -/

lemma applyCorrections_eq_foldl (text : String) (l : List SpellingError) :
    applyCorrections text l = (sortCorrections l).foldl applyCorrection text := by
  cases l <;> rfl

lemma dropWhile_replicate_pos {p : Char → Bool} {c : Char} (h : p c = true) (n : Nat) :
    (List.replicate n c).dropWhile p = [] := by
  induction n with
  | zero => rfl
  | succ m ih => simp [List.replicate_succ, List.dropWhile_cons, h, ih]

lemma dropWhile_replicate_neg {p : Char → Bool} {c : Char} (h : p c = false) (n : Nat) :
    (List.replicate n c).dropWhile p = List.replicate n c := by
  cases n with
  | zero => rfl
  | succ m => simp [List.replicate_succ, List.dropWhile_cons, h]

lemma longBlank_length : longBlank.length = 10001 := by
  show (List.replicate 10001 ' ').length = 10001
  rw [List.length_replicate]

lemma longA_length : longA.length = 10001 := by
  show (List.replicate 10001 'a').length = 10001
  rw [List.length_replicate]

lemma jsTrim_longBlank : jsTrim longBlank = "" := by
  show ((((List.replicate 10001 ' ').dropWhile Char.isWhitespace).reverse.dropWhile
      Char.isWhitespace).reverse).asString = ""
  rw [dropWhile_replicate_pos (by decide)]
  rfl

lemma isBlank_longBlank : isBlank longBlank = true := by
  unfold isBlank
  rw [jsTrim_longBlank]
  rfl

lemma jsTrim_longA : jsTrim longA = longA := by
  show ((((List.replicate 10001 'a').dropWhile Char.isWhitespace).reverse.dropWhile
      Char.isWhitespace).reverse).asString = longA
  rw [dropWhile_replicate_neg (by decide), List.reverse_replicate,
    dropWhile_replicate_neg (by decide), List.reverse_replicate]
  rfl

lemma isBlank_longA : isBlank longA = false := by
  unfold isBlank
  rw [jsTrim_longA]
  have h1 : (longA == "") = false := by
    show ((List.replicate 10001 'a').asString == "") = false
    rw [List.replicate_succ]
    rfl
  have h2 : (longA.length == 0) = false := by
    rw [longA_length]
    rfl
  rw [h1, h2]
  rfl

lemma longA_gt : longA.length > 10000 := by
  rw [longA_length]
  decide

/-- C5: `applyCorrections` processes the records in descending order of
`pos` (a stable sort on that key, a permutation of the input), splicing
each record's first candidate over the span `[pos, pos+len)` of the
current text, and skipping any record whose candidate list is empty. -/
theorem applyCorrections_sorted_desc_first_candidate (text : String)
    (errors : List SpellingError) :
    (sortCorrections errors).Perm errors ∧
    (sortCorrections errors).Sorted posDesc ∧
    applyCorrections text errors = (sortCorrections errors).foldl applyCorrection text ∧
    (∀ r e, e.s = [] → applyCorrection r e = r) ∧
    (∀ r e c rest, e.s = c :: rest →
        applyCorrection r e =
          ((r.toList.take e.pos) ++ c.toList ++ (r.toList.drop (e.pos + e.len))).asString) := by
  refine ⟨List.perm_insertionSort posDesc errors, List.sorted_insertionSort posDesc errors,
    applyCorrections_eq_foldl text errors, ?_, ?_⟩
  · intro r e h
    simp [applyCorrection, h]
  · intro r e c rest h
    simp [applyCorrection, h]

/-- Witness for C5: the splice equation evaluated at the `pos = 0`
correction of the spec's merge example. -/
theorem applyCorrections_sorted_desc_first_candidate_witness :
    applyCorrection "hello world" corrAt0 =
      ((("hello world").toList.take corrAt0.pos) ++ ("xyz").toList ++
        (("hello world").toList.drop (corrAt0.pos + corrAt0.len))).asString :=
  (applyCorrections_sorted_desc_first_candidate "hello world" [corrAt0]).2.2.2.2
    "hello world" corrAt0 "xyz" [] rfl

/-- C6 counterexample: two correction records sharing the same `pos`
make the merge depend on the order of the input array (the stable sort
keeps their input order, and the later record's splice wins). -/
theorem applyCorrections_order_dependent_cex :
    [corrDupX, corrDupY].Perm [corrDupY, corrDupX] ∧
    applyCorrections "ab" [corrDupX, corrDupY] = "Yb" ∧
    applyCorrections "ab" [corrDupY, corrDupX] = "Xb" ∧
    applyCorrections "ab" [corrDupX, corrDupY] ≠ applyCorrections "ab" [corrDupY, corrDupX] := by
  decide

/-- C6 as amended: when all correction records have pairwise distinct
`pos` values, the merge result is invariant under permutation of the
input array. -/
theorem applyCorrections_perm_invariant_distinct_pos (text : String)
    (l1 l2 : List SpellingError) (hperm : l1.Perm l2)
    (hdist : l1.Pairwise fun a b => a.pos ≠ b.pos) :
    applyCorrections text l1 = applyCorrections text l2 := by
  have hsp : (sortCorrections l1).Perm (sortCorrections l2) :=
    (List.perm_insertionSort posDesc l1).trans
      (hperm.trans (List.perm_insertionSort posDesc l2).symm)
  have hd1 : (sortCorrections l1).Pairwise (fun a b => a.pos ≠ b.pos) :=
    ((List.perm_insertionSort posDesc l1).pairwise_iff (fun {_ _} h => Ne.symm h)).mpr hdist
  have hd2 : (sortCorrections l2).Pairwise (fun a b => a.pos ≠ b.pos) :=
    ((List.perm_insertionSort posDesc l2).pairwise_iff (fun {_ _} h => Ne.symm h)).mpr
      ((hperm.pairwise_iff (fun {_ _} h => Ne.symm h)).mp hdist)
  have hs1 : (sortCorrections l1).Pairwise posDescStrict :=
    (List.Pairwise.and (List.sorted_insertionSort posDesc l1) hd1).imp
      (fun h => Nat.lt_of_le_of_ne h.1 (Ne.symm h.2))
  have hs2 : (sortCorrections l2).Pairwise posDescStrict :=
    (List.Pairwise.and (List.sorted_insertionSort posDesc l2) hd2).imp
      (fun h => Nat.lt_of_le_of_ne h.1 (Ne.symm h.2))
  have heq : sortCorrections l1 = sortCorrections l2 :=
    List.eq_of_perm_of_sorted hsp hs1 hs2
  rw [applyCorrections_eq_foldl, applyCorrections_eq_foldl, heq]

/-- Witness for C6 as amended: the spec's own merge example, with the two
distinct-position corrections given in either order. -/
theorem applyCorrections_perm_invariant_distinct_pos_witness :
    applyCorrections "hello world" [corrAt5, corrAt0] =
      applyCorrections "hello world" [corrAt0, corrAt5] :=
  applyCorrections_perm_invariant_distinct_pos "hello world" [corrAt5, corrAt0]
    [corrAt0, corrAt5] (by decide) (by decide)

/-- C7 counterexample: a 10001-character whitespace-only input hits the
no-op fast path, so nothing at all is submitted to the adapter and the
text comes back unchanged (not truncated). -/
theorem checkSpelling_blank_long_no_submit_cex :
    longBlank.length > 10000 ∧
    (checkSpelling longBlank ["ru", "en"] 2 okSpellerAdapter).2 = [] ∧
    (checkSpelling longBlank ["ru", "en"] 2 okSpellerAdapter).1.text = some longBlank := by
  refine ⟨?_, ?_, ?_⟩
  · rw [longBlank_length]
    decide
  · simp [checkSpelling, isBlank_longBlank]
  · simp [checkSpelling, isBlank_longBlank]

/-- C7 as amended: for every non-blank input longer than 10000 characters,
`checkSpelling` submits to the adapter exactly one request whose text is
the first 10000 characters (so a 10001-character input yields exactly a
10000-character submission), and the truncation is silent: an adapter
success still returns `success = true` with no error. -/
theorem checkSpelling_truncates_nonblank (text : String) (lang : List String) (options : Nat)
    (adapter : SpellerRequest → Except String (List SpellingError))
    (hlen : text.length > 10000) (hblank : isBlank text = false) :
    (checkSpelling text lang options adapter).2 =
      [spellerRequestOf ((text.toList.take 10000).asString) lang options] ∧
    ((text.toList.take 10000).asString).length = 10000 ∧
    (∀ errs,
        adapter (spellerRequestOf ((text.toList.take 10000).asString) lang options) =
          Except.ok errs →
        (checkSpelling text lang options adapter).1.success = true ∧
        (checkSpelling text lang options adapter).1.error = none) := by
  have htr : truncateForSpeller text = (text.toList.take 10000).asString := by
    unfold truncateForSpeller
    rw [if_pos hlen]
  refine ⟨?_, ?_, ?_⟩
  · unfold checkSpelling
    rw [htr]
    simp only [hblank, Bool.false_eq_true, if_false]
    cases hreq : adapter (spellerRequestOf ((text.toList.take 10000).asString) lang options) <;>
      simp [hreq]
  · show (text.toList.take 10000).length = 10000
    rw [List.length_take]
    exact Nat.min_eq_left (Nat.le_of_lt hlen)
  · intro errs herrs
    unfold checkSpelling
    rw [htr]
    simp only [hblank, Bool.false_eq_true, if_false]
    rw [herrs]
    exact ⟨rfl, rfl⟩

/-- Witness for C7 as amended: a concrete 10001-character non-blank input
with a succeeding adapter. -/
theorem checkSpelling_truncates_nonblank_witness :
    (checkSpelling longA ["ru"] 2 okSpellerAdapter).2 =
      [spellerRequestOf ((longA.toList.take 10000).asString) ["ru"] 2] ∧
    ((longA.toList.take 10000).asString).length = 10000 ∧
    (∀ errs,
        okSpellerAdapter (spellerRequestOf ((longA.toList.take 10000).asString) ["ru"] 2) =
          Except.ok errs →
        (checkSpelling longA ["ru"] 2 okSpellerAdapter).1.success = true ∧
        (checkSpelling longA ["ru"] 2 okSpellerAdapter).1.error = none) :=
  checkSpelling_truncates_nonblank longA ["ru"] 2 okSpellerAdapter longA_gt isBlank_longA

/-- C8: on empty or whitespace-only input, `checkSpelling` succeeds with
the text unchanged and zero corrections, submitting nothing to the
adapter, for every languages list, options value and adapter. -/
theorem checkSpelling_blank_noop (text : String) (lang : List String) (options : Nat)
    (adapter : SpellerRequest → Except String (List SpellingError))
    (h : isBlank text = true) :
    checkSpelling text lang options adapter =
      ({ success := true, text := some text, errors := some [], correctedCount := some 0,
         error := none }, []) := by
  simp [checkSpelling, h]

/-- Witness for C8: the empty string with a failing adapter. -/
theorem checkSpelling_blank_noop_witness :
    checkSpelling "" ["ru", "en"] 2 downSpellerAdapter =
      ({ success := true, text := some "", errors := some [], correctedCount := some 0,
         error := none }, []) :=
  checkSpelling_blank_noop "" ["ru", "en"] 2 downSpellerAdapter (by decide)

/-- C4: when the spelling adapter call fails and the generative-text
fallback succeeds, `correctSpelling` still returns `succeeded = true`, its
provider label is the fallback label, and that label differs from the
primary path's label. -/
theorem correctSpelling_fallback_success (text : String) (lang : List String)
    (adapter : SpellerRequest → Except String (List SpellingError))
    (genAdapter : String → Except String String) (msg t : String)
    (hblank : isBlank text = false)
    (hfail : adapter (spellerRequestOf (truncateForSpeller text) lang SPELLER_IGNORE_URLS) =
      Except.error msg)
    (hgen : genAdapter (spellingFallbackInstruction text) = Except.ok t) :
    (correctSpelling text lang adapter genAdapter).succeeded = true ∧
    (correctSpelling text lang adapter genAdapter).providerLabel =
      some "Gemini (Spelling Fallback)" ∧
    (correctSpelling text lang adapter genAdapter).providerLabel ≠ some "Yandex.Speller" ∧
    (correctSpelling text lang adapter genAdapter).text = some t := by
  have hck : (checkSpelling text lang SPELLER_IGNORE_URLS adapter).1.success = false := by
    simp [checkSpelling, hblank, hfail]
  unfold correctSpelling
  simp [hck, hgen]

/-- Witness for C4: a concrete non-blank text with a failing spelling
adapter and a succeeding generative fallback. -/
theorem correctSpelling_fallback_success_witness :
    (correctSpelling "helo wrld" ["en"] downSpellerAdapter okGenAdapter).succeeded = true ∧
    (correctSpelling "helo wrld" ["en"] downSpellerAdapter okGenAdapter).providerLabel =
      some "Gemini (Spelling Fallback)" ∧
    (correctSpelling "helo wrld" ["en"] downSpellerAdapter okGenAdapter).providerLabel ≠
      some "Yandex.Speller" ∧
    (correctSpelling "helo wrld" ["en"] downSpellerAdapter okGenAdapter).text =
      some "fixed text" :=
  correctSpelling_fallback_success "helo wrld" ["en"] downSpellerAdapter okGenAdapter
    "network down" "fixed text" (by decide) rfl rfl

lemma mem_append_single_resolve {x a : TierCall} {prior : List TierCall}
    (h : x ∈ prior ++ [a]) (hp : x ∉ prior) : x = a := by
  rcases List.mem_append.mp h with h1 | h1
  · exact absurd h1 hp
  · simpa using h1

lemma mem_append_pair_resolve {x a b : TierCall} {prior : List TierCall}
    (h : x ∈ prior ++ [a, b]) (hp : x ∉ prior) : x = a ∨ x = b := by
  rcases List.mem_append.mp h with h1 | h1
  · exact absurd h1 hp
  · simpa using h1

lemma quotaSignature_initMsg : quotaSignature geminiInitErrorMsg = false := by decide

lemma fixPunctuationCatch_nonquota (text : String) (mode : TranscriptionMode)
    (env : PunctuationEnv) (e : String) (prior : List TierCall)
    (hq : quotaSignature e = false) :
    fixPunctuationCatch text mode env e prior = (punctuationFailure text e, prior) := by
  simp [fixPunctuationCatch, hq]

lemma fixPunctuationCatch_countP_isGemini (text : String) (mode : TranscriptionMode)
    (env : PunctuationEnv) (e : String) (prior : List TierCall) :
    ((fixPunctuationCatch text mode env e prior).2).countP TierCall.isGemini =
      prior.countP TierCall.isGemini := by
  unfold fixPunctuationCatch
  cases hq : quotaSignature e
  · simp
  · cases hg : env.groq with
    | ok o =>
        cases hco : contentOf o <;>
          simp [hco, List.countP_append, List.countP_cons, groqTierCall, TierCall.isGemini]
    | error g =>
        cases hk : resolvedDeepSeekKey env with
        | none =>
            simp [hk, List.countP_append, List.countP_cons, groqTierCall, TierCall.isGemini]
        | some k =>
            by_cases hk0 : k = ""
            · simp [hk, hk0, List.countP_append, List.countP_cons, groqTierCall,
                TierCall.isGemini]
            · cases hds : env.deepseek with
              | ok o =>
                  cases hco : contentOf o <;>
                    simp [hk, hk0, hds, hco, List.countP_append, List.countP_cons,
                      groqTierCall, deepSeekTierCall, TierCall.isGemini]
              | error d =>
                  simp [hk, hk0, hds, List.countP_append, List.countP_cons,
                    groqTierCall, deepSeekTierCall, TierCall.isGemini]

lemma fixPunctuationCatch_groq_mem (text : String) (mode : TranscriptionMode)
    (env : PunctuationEnv) (e : String) (prior : List TierCall)
    (hq : quotaSignature e = true) :
    groqTierCall mode text ∈ (fixPunctuationCatch text mode env e prior).2 := by
  unfold fixPunctuationCatch
  cases hg : env.groq with
  | ok o => cases hco : contentOf o <;> simp [hq, hco]
  | error g =>
      cases hk : resolvedDeepSeekKey env with
      | none => simp [hq, hk]
      | some k =>
          by_cases hk0 : k = ""
          · simp [hq, hk, hk0]
          · cases hds : env.deepseek with
            | ok o => cases hco : contentOf o <;> simp [hq, hk, hk0, hds, hco]
            | error d => simp [hq, hk, hk0, hds]

lemma fixPunctuationCatch_groq_nocontent (text : String) (mode : TranscriptionMode)
    (env : PunctuationEnv) (e : String) (prior : List TierCall) (o : Option String)
    (hq : quotaSignature e = true) (hg : env.groq = Except.ok o) (hco : contentOf o = none) :
    fixPunctuationCatch text mode env e prior =
      (punctuationFailure text e, prior ++ [groqTierCall mode text]) := by
  simp [fixPunctuationCatch, hq, hg, hco]

lemma fixPunctuationCatch_ds_success (text : String) (mode : TranscriptionMode)
    (env : PunctuationEnv) (e : String) (prior : List TierCall) (g k c : String)
    (hq : quotaSignature e = true) (hg : env.groq = Except.error g)
    (hk : resolvedDeepSeekKey env = some k) (hk0 : ¬ k = "")
    (hds : env.deepseek = Except.ok (some c)) (hc : ¬ c = "") :
    fixPunctuationCatch text mode env e prior =
      ({ success := true, text := some (jsTrim c), error := none,
         provider := some "DeepSeek" },
       prior ++ [groqTierCall mode text, deepSeekTierCall env mode text k]) := by
  have hco : contentOf (some c) = some c := by simp [contentOf, hc]
  simp [fixPunctuationCatch, hq, hg, hk, hk0, hds, hco]

lemma fixPunctuationCatch_failure_inv (text : String) (mode : TranscriptionMode)
    (env : PunctuationEnv) (e : String) (prior : List TierCall)
    (h : (fixPunctuationCatch text mode env e prior).1.success = false) :
    (fixPunctuationCatch text mode env e prior).1 = punctuationFailure text e := by
  unfold fixPunctuationCatch at h ⊢
  cases hq : quotaSignature e
  · simp
  · cases hg : env.groq with
    | ok o =>
        cases hco : contentOf o
        · simp [hco]
        · simp [hq, hg, hco] at h
    | error g =>
        cases hk : resolvedDeepSeekKey env with
        | none => simp [hk]
        | some k =>
            by_cases hk0 : k = ""
            · simp [hk, hk0]
            · cases hds : env.deepseek with
              | ok o =>
                  cases hco : contentOf o
                  · simp [hk, hk0, hds, hco]
                  · simp [hq, hg, hk, hk0, hds, hco] at h
              | error d => simp [hk, hk0, hds]

lemma fixPunctuationCatch_ds_mem (text : String) (mode : TranscriptionMode)
    (env : PunctuationEnv) (e : String) (prior : List TierCall) (s u m b k : String)
    (h : TierCall.deepseek s u m b k ∈ (fixPunctuationCatch text mode env e prior).2)
    (hprior : TierCall.deepseek s u m b k ∉ prior) :
    quotaSignature e = true ∧ (∃ g, env.groq = Except.error g) ∧
    s = fallbackPunctuationPrompt mode ∧ u = text ∧
    m = resolvedDeepSeekModel env ∧ b = resolvedDeepSeekBaseUrl env ∧
    resolvedDeepSeekKey env = some k ∧ k ≠ "" := by
  unfold fixPunctuationCatch at h
  cases hq : quotaSignature e
  · rw [hq] at h
    simp at h
    exact absurd h hprior
  · rw [hq] at h
    cases hg : env.groq with
    | ok o =>
        rw [hg] at h
        cases hco : contentOf o <;>
          · simp [hco, groqTierCall] at h
            exact absurd h hprior
    | error g =>
        rw [hg] at h
        cases hk : resolvedDeepSeekKey env with
        | none =>
            rw [hk] at h
            simp [groqTierCall] at h
            exact absurd h hprior
        | some k2 =>
            rw [hk] at h
            by_cases hk0 : k2 = ""
            · simp [hk0, groqTierCall] at h
              exact absurd h hprior
            · cases hds : env.deepseek with
              | ok o =>
                  cases hco : contentOf o <;>
                    · rw [hds] at h
                      simp [hco, hk0, groqTierCall, deepSeekTierCall] at h
                      rcases h with h | ⟨hs, hu, hm, hb, hkk⟩
                      · exact absurd h hprior
                      · subst hs
                        subst hu
                        subst hm
                        subst hb
                        subst hkk
                        exact ⟨rfl, ⟨g, rfl⟩, rfl, rfl, rfl, rfl, rfl, hk0⟩
              | error d =>
                  rw [hds] at h
                  simp [hk0, groqTierCall, deepSeekTierCall] at h
                  rcases h with h | ⟨hs, hu, hm, hb, hkk⟩
                  · exact absurd h hprior
                  · subst hs
                    subst hu
                    subst hm
                    subst hb
                    subst hkk
                    exact ⟨rfl, ⟨g, rfl⟩, rfl, rfl, rfl, rfl, rfl, hk0⟩

lemma fixPunctuation_noinit (text : String) (mode : TranscriptionMode) (tone : TonePreset)
    (env : PunctuationEnv) (h : env.aiInit = false) :
    fixPunctuation text mode tone env =
      fixPunctuationCatch text mode env geminiInitErrorMsg [] := by
  simp [fixPunctuation, getAI, h]

lemma fixPunctuation_gemini_error (text : String) (mode : TranscriptionMode)
    (tone : TonePreset) (env : PunctuationEnv) (e : String)
    (hinit : env.aiInit = true) (hgem : env.gemini = Except.error e) :
    fixPunctuation text mode tone env =
      fixPunctuationCatch text mode env e [geminiCall text mode tone] := by
  simp [fixPunctuation, getAI, hinit, hgem]

lemma fixPunctuation_gemini_ok_calls (text : String) (mode : TranscriptionMode)
    (tone : TonePreset) (env : PunctuationEnv) (o : Option String)
    (hinit : env.aiInit = true) (hgem : env.gemini = Except.ok o) :
    (fixPunctuation text mode tone env).1.success = true ∧
    (fixPunctuation text mode tone env).2 = [geminiCall text mode tone] := by
  simp [fixPunctuation, getAI, hinit, hgem]

lemma fixPunctuation_ds_mem_inv (text : String) (mode : TranscriptionMode)
    (tone : TonePreset) (env : PunctuationEnv) (s u m b k : String)
    (h : TierCall.deepseek s u m b k ∈ (fixPunctuation text mode tone env).2) :
    env.aiInit = true ∧ (∃ e, env.gemini = Except.error e ∧ quotaSignature e = true) ∧
    (∃ g, env.groq = Except.error g) ∧
    s = fallbackPunctuationPrompt mode ∧ u = text ∧
    m = resolvedDeepSeekModel env ∧ b = resolvedDeepSeekBaseUrl env ∧
    resolvedDeepSeekKey env = some k ∧ k ≠ "" := by
  cases hinit : env.aiInit
  · rw [fixPunctuation_noinit _ _ _ _ hinit,
      fixPunctuationCatch_nonquota _ _ _ _ _ quotaSignature_initMsg] at h
    simp at h
  · cases hgem : env.gemini with
    | ok o =>
        rw [(fixPunctuation_gemini_ok_calls text mode tone env o hinit hgem).2] at h
        simp [geminiCall] at h
    | error e =>
        rw [fixPunctuation_gemini_error _ _ _ _ _ hinit hgem] at h
        have hprior : TierCall.deepseek s u m b k ∉ [geminiCall text mode tone] := by
          simp [geminiCall]
        obtain ⟨hq, hgroq, hs, hu, hm, hb, hk, hk0⟩ :=
          fixPunctuationCatch_ds_mem _ _ _ _ _ _ _ _ _ _ h hprior
        exact ⟨rfl, ⟨e, rfl, hq⟩, hgroq, hs, hu, hm, hb, hk, hk0⟩

/-- C1 counterexample: a Tier-1 exception whose message carries no
quota/rate-limit signature does not fall through to Tier 2, even though
the Tier-2 provider would succeed — `fixPunctuation` fails immediately
with only the Gemini call made. -/
theorem fixPunctuation_nonquota_no_tier2_cex :
    envNonQuotaDown.gemini = Except.error "network failure" ∧
    envNonQuotaDown.groq = Except.ok (some "groq text") ∧
    (fixPunctuation "hi" TranscriptionMode.general TonePreset.default envNonQuotaDown).1 =
      punctuationFailure "hi" "network failure" ∧
    (fixPunctuation "hi" TranscriptionMode.general TonePreset.default envNonQuotaDown).2 =
      [geminiCall "hi" TranscriptionMode.general TonePreset.default] :=
  ⟨rfl, rfl, by decide, by decide⟩

/-- C1 as amended: after a Tier-1 exception, the stage falls through to
Tier 2 exactly when the error message carries a quota/rate-limit signature
("429", "quota" or "RESOURCE_EXHAUSTED"); on any other exception it
returns `succeeded = false` with the original text without attempting
Tier 2; in either case Tier 1 is never retried (exactly one Gemini call). -/
theorem fixPunctuation_fallthrough_quota_gated (text : String) (mode : TranscriptionMode)
    (tone : TonePreset) (env : PunctuationEnv) (e : String)
    (hinit : env.aiInit = true) (hgem : env.gemini = Except.error e) :
    (quotaSignature e = true →
        groqTierCall mode text ∈ (fixPunctuation text mode tone env).2) ∧
    (quotaSignature e = false →
        (fixPunctuation text mode tone env).1 = punctuationFailure text e ∧
        (fixPunctuation text mode tone env).2 = [geminiCall text mode tone]) ∧
    ((fixPunctuation text mode tone env).2).countP TierCall.isGemini = 1 := by
  rw [fixPunctuation_gemini_error text mode tone env e hinit hgem]
  refine ⟨?_, ?_, ?_⟩
  · intro hq
    exact fixPunctuationCatch_groq_mem text mode env e _ hq
  · intro hq
    rw [fixPunctuationCatch_nonquota _ _ _ _ _ hq]
    exact ⟨rfl, rfl⟩
  · rw [fixPunctuationCatch_countP_isGemini]
    simp [geminiCall, TierCall.isGemini]

/-- Witness for C1 as amended: a "429" Tier-1 error falls through to the
Groq tier and Gemini is called exactly once. -/
theorem fixPunctuation_fallthrough_quota_gated_witness :
    groqTierCall TranscriptionMode.general "hi" ∈
      (fixPunctuation "hi" TranscriptionMode.general TonePreset.default envQuota429).2 ∧
    ((fixPunctuation "hi" TranscriptionMode.general TonePreset.default envQuota429).2).countP
      TierCall.isGemini = 1 :=
  ⟨(fixPunctuation_fallthrough_quota_gated "hi" TranscriptionMode.general TonePreset.default
      envQuota429 "429 Too Many Requests" rfl rfl).1 (by decide),
   (fixPunctuation_fallthrough_quota_gated "hi" TranscriptionMode.general TonePreset.default
      envQuota429 "429 Too Many Requests" rfl rfl).2.2⟩

/-- C2 counterexample: with every tier down, the error message returned is
the Tier-1 error message, not the fixed string
"all punctuation correction providers unavailable". -/
theorem fixPunctuation_final_failure_msg_cex :
    (fixPunctuation "hello" TranscriptionMode.general TonePreset.default envAllDown).1.success
      = false ∧
    (fixPunctuation "hello" TranscriptionMode.general TonePreset.default envAllDown).1.text =
      some "hello" ∧
    (fixPunctuation "hello" TranscriptionMode.general TonePreset.default envAllDown).1.error =
      some "quota exceeded" ∧
    (fixPunctuation "hello" TranscriptionMode.general TonePreset.default envAllDown).1.error ≠
      some "all punctuation correction providers unavailable" := by
  decide

/-- C2 as amended: whenever `fixPunctuation` fails (every attempted tier
failed or was skipped), it returns the original text unchanged and the
Tier-1 error message — the Gemini exception message, or the
client-not-initialized message — as `errorMessage`. -/
theorem fixPunctuation_final_failure_returns_tier1_error (text : String)
    (mode : TranscriptionMode) (tone : TonePreset) (env : PunctuationEnv)
    (hfail : (fixPunctuation text mode tone env).1.success = false) :
    (fixPunctuation text mode tone env).1.text = some text ∧
    (∃ e, (fixPunctuation text mode tone env).1.error = some e ∧
      ((env.aiInit = false ∧ e = geminiInitErrorMsg) ∨ env.gemini = Except.error e)) := by
  cases hinit : env.aiInit
  · rw [fixPunctuation_noinit text mode tone env hinit,
      fixPunctuationCatch_nonquota _ _ _ _ _ quotaSignature_initMsg]
    exact ⟨rfl, geminiInitErrorMsg, rfl, Or.inl ⟨rfl, rfl⟩⟩
  · cases hgem : env.gemini with
    | ok o =>
        have hsucc := (fixPunctuation_gemini_ok_calls text mode tone env o hinit hgem).1
        rw [hsucc] at hfail
        simp at hfail
    | error e =>
        rw [fixPunctuation_gemini_error text mode tone env e hinit hgem] at hfail ⊢
        rw [fixPunctuationCatch_failure_inv text mode env e _ hfail]
        exact ⟨rfl, e, rfl, Or.inr rfl⟩

/-- Witness for C2 as amended: the all-providers-down environment. -/
theorem fixPunctuation_final_failure_returns_tier1_error_witness :
    (fixPunctuation "hello" TranscriptionMode.general TonePreset.default envAllDown).1.text =
      some "hello" ∧
    (∃ e, (fixPunctuation "hello" TranscriptionMode.general TonePreset.default
        envAllDown).1.error = some e ∧
      ((envAllDown.aiInit = false ∧ e = geminiInitErrorMsg) ∨
        envAllDown.gemini = Except.error e)) :=
  fixPunctuation_final_failure_returns_tier1_error "hello" TranscriptionMode.general
    TonePreset.default envAllDown (by decide)

/-- C9: reading the generative client while uninitialized throws (fails
fast), and `fixPunctuation` converts that exception into a failed result
carrying the original text, making no provider call at all. -/
theorem getAI_uninitialized_fail_fast (text : String) (mode : TranscriptionMode)
    (tone : TonePreset) (env : PunctuationEnv) (h : env.aiInit = false) :
    getAI env.aiInit = Except.error geminiInitErrorMsg ∧
    (fixPunctuation text mode tone env).1 = punctuationFailure text geminiInitErrorMsg ∧
    (fixPunctuation text mode tone env).2 = [] := by
  rw [fixPunctuation_noinit text mode tone env h,
    fixPunctuationCatch_nonquota _ _ _ _ _ quotaSignature_initMsg, h]
  exact ⟨rfl, rfl, rfl⟩

/-- Witness for C9: the uninitialized environment. -/
theorem getAI_uninitialized_fail_fast_witness :
    getAI envNoInit.aiInit = Except.error geminiInitErrorMsg ∧
    (fixPunctuation "hi" TranscriptionMode.general TonePreset.default envNoInit).1 =
      punctuationFailure "hi" geminiInitErrorMsg ∧
    (fixPunctuation "hi" TranscriptionMode.general TonePreset.default envNoInit).2 = [] :=
  getAI_uninitialized_fail_fast "hi" TranscriptionMode.general TonePreset.default envNoInit rfl

/-- C10: the DeepSeek tier is reachable only out of a thrown Tier-2
error — any DeepSeek call implies the Groq call threw; and when Tier 2
resolves without throwing but carries no `choices[0].message.content`,
`fixPunctuation` returns the Tier-1 failure with the original text and
never attempts DeepSeek. -/
theorem fixPunctuation_deepseek_only_after_tier2_throw (text : String)
    (mode : TranscriptionMode) (tone : TonePreset) (env : PunctuationEnv) :
    (∀ s u m b k, TierCall.deepseek s u m b k ∈ (fixPunctuation text mode tone env).2 →
        ∃ g, env.groq = Except.error g) ∧
    (∀ e o, env.aiInit = true → env.gemini = Except.error e → env.groq = Except.ok o →
        contentOf o = none →
        (fixPunctuation text mode tone env).1 = punctuationFailure text e ∧
        ∀ s u m b k, TierCall.deepseek s u m b k ∉ (fixPunctuation text mode tone env).2) := by
  constructor
  · intro s u m b k h
    exact (fixPunctuation_ds_mem_inv text mode tone env s u m b k h).2.2.1
  · intro e o hinit hgem hg hco
    rw [fixPunctuation_gemini_error text mode tone env e hinit hgem]
    cases hq : quotaSignature e
    · rw [fixPunctuationCatch_nonquota _ _ _ _ _ hq]
      exact ⟨rfl, by simp [geminiCall]⟩
    · rw [fixPunctuationCatch_groq_nocontent _ _ _ _ _ _ hq hg hco]
      refine ⟨rfl, ?_⟩
      intro s u m b k
      simp [geminiCall, groqTierCall]

/-- Witness for C10: Tier 2 resolves with empty content (falsy in the
source's truthiness check), so the result is the Tier-1 failure and a
DeepSeek call of any shape is absent. -/
theorem fixPunctuation_deepseek_only_after_tier2_throw_witness :
    (fixPunctuation "hi" TranscriptionMode.general TonePreset.default
        envGroqEmptyContent).1 = punctuationFailure "hi" "429 Too Many Requests" ∧
    TierCall.deepseek "s" "u" "m" "b" "k" ∉
      (fixPunctuation "hi" TranscriptionMode.general TonePreset.default
        envGroqEmptyContent).2 :=
  ⟨((fixPunctuation_deepseek_only_after_tier2_throw "hi" TranscriptionMode.general
      TonePreset.default envGroqEmptyContent).2 "429 Too Many Requests" (some "")
      rfl rfl rfl (by decide)).1,
   ((fixPunctuation_deepseek_only_after_tier2_throw "hi" TranscriptionMode.general
      TonePreset.default envGroqEmptyContent).2 "429 Too Many Requests" (some "")
      rfl rfl rfl (by decide)).2 "s" "u" "m" "b" "k"⟩

/-- C3: the DeepSeek tier runs only when the key resolution — local
override storage, then environment configuration, then the primary
chat-completion key — yields a non-empty key; the call it makes uses that
key and, when no model/base-URL is configured, the defaults
"deepseek-chat" and "https://api.deepseek.com/v1"; and when the DeepSeek
response carries content, the stage returns `succeeded = true` with
provider label "DeepSeek". -/
theorem fixPunctuation_deepseek_tier_spec (text : String) (mode : TranscriptionMode)
    (tone : TonePreset) (env : PunctuationEnv) (c : String)
    (hm1 : env.envDeepSeekModel = none) (hm2 : env.envOpenAIModel = none)
    (hb1 : env.envDeepSeekBaseUrl = none) (hb2 : env.envOpenAIBaseUrl = none)
    (hds : env.deepseek = Except.ok (some c)) (hc : c ≠ "") :
    (∀ s u m b k, TierCall.deepseek s u m b k ∈ (fixPunctuation text mode tone env).2 →
        resolvedDeepSeekKey env = some k ∧ k ≠ "" ∧
        m = "deepseek-chat" ∧ b = "https://api.deepseek.com/v1") ∧
    ((∃ s u m b k, TierCall.deepseek s u m b k ∈ (fixPunctuation text mode tone env).2) →
        (fixPunctuation text mode tone env).1.success = true ∧
        (fixPunctuation text mode tone env).1.provider = some "DeepSeek" ∧
        (fixPunctuation text mode tone env).1.text = some (jsTrim c)) := by
  have hmodel : resolvedDeepSeekModel env = "deepseek-chat" := by
    simp [resolvedDeepSeekModel, jsOr, jsOrD, hm1, hm2]
  have hbase : resolvedDeepSeekBaseUrl env = "https://api.deepseek.com/v1" := by
    simp [resolvedDeepSeekBaseUrl, jsOr, jsOrD, hb1, hb2]
  constructor
  · intro s u m b k h
    obtain ⟨_, _, _, _, _, hm, hb, hk, hk0⟩ :=
      fixPunctuation_ds_mem_inv text mode tone env s u m b k h
    exact ⟨hk, hk0, by rw [hm, hmodel], by rw [hb, hbase]⟩
  · rintro ⟨s, u, m, b, k, h⟩
    obtain ⟨hinit, ⟨e, hgem, hq⟩, ⟨g, hg⟩, _, _, _, _, hk, hk0⟩ :=
      fixPunctuation_ds_mem_inv text mode tone env s u m b k h
    rw [fixPunctuation_gemini_error text mode tone env e hinit hgem,
      fixPunctuationCatch_ds_success text mode env e _ g k c hq hg hk hk0 hds hc]
    exact ⟨rfl, rfl, rfl⟩

/-- Witness for C3: local-storage key "k1" set, Gemini quota-failed, Groq
thrown, DeepSeek succeeding with content "Privet.". -/
theorem fixPunctuation_deepseek_tier_spec_witness :
    (fixPunctuation "hi" TranscriptionMode.general TonePreset.default
        envDeepSeekUp).1.success = true ∧
    (fixPunctuation "hi" TranscriptionMode.general TonePreset.default
        envDeepSeekUp).1.provider = some "DeepSeek" ∧
    (fixPunctuation "hi" TranscriptionMode.general TonePreset.default
        envDeepSeekUp).1.text = some (jsTrim "Privet.") :=
  (fixPunctuation_deepseek_tier_spec "hi" TranscriptionMode.general TonePreset.default
      envDeepSeekUp "Privet." rfl rfl rfl rfl rfl (by decide)).2
    ⟨fallbackPunctuationPrompt TranscriptionMode.general, "hi", "deepseek-chat",
      "https://api.deepseek.com/v1", "k1", by decide⟩
